import Mathlib

/-
Verification development for the Portals Market proxy gateway (src/reload.py).

The gateway is a FastAPI application that forwards each local route to a fixed
upstream path.  We embed it shallowly:

* JSON values are the inductive `Json`.  JSON numbers are modelled as integers
  (`Int`); the claims under study never require non-integer JSON numerics —
  every monetary amount travels as a decimal string.
* pydantic (v1) model validation is embedded as a per-field validator list:
  a model is a `List (String × FieldV)`, a field validator consumes the field
  lookup result (`none` = field absent) and yields the serialized value.
  Optional fields carry the implicit `None` default of pydantic v1, so an
  absent optional field validates and serializes as an explicit `null`;
  undeclared extra fields are dropped.  Scalar validators include pydantic
  v1's lenient coercions (numbers and booleans coerce to `str`, etc.).
* FastAPI query-parameter handling (`Query(default, ge=...)`) is embedded as a
  parse step applied before the handler body runs: absent parameters take the
  declared default, and a violated constraint yields a 422 validation error
  before any upstream call.
* each route handler is a function from an upstream-call oracle
  `UpstreamRequest → UpstreamResult` to a `LocalResponse`.  A transport error
  (timeout, unreachable host) raised by the HTTP client is uncaught in the
  handlers, so it surfaces as the framework's generic 500 response, modelled
  by `LocalResponse.serverError`; a pydantic failure while serializing the
  response model surfaces the same way.
-/

/-- A JSON value.  Objects keep field order; numbers are modelled as integers. -/
inductive Json where
  | null
  | bool (b : Bool)
  | num (n : Int)
  | str (s : String)
  | arr (elems : List Json)
  | obj (fields : List (String × Json))

/-- First-match lookup in a JSON object field list (Python dict access). -/
def jlookup : List (String × Json) → String → Option Json
  | [], _ => none
  | (k, v) :: rest, key => if k = key then some v else jlookup rest key

/-- Field access on a JSON value: `some` only for objects that carry the key. -/
def Json.get (j : Json) (key : String) : Option Json :=
  match j with
  | .obj kvs => jlookup kvs key
  | _ => none

/-- A query-parameter value as placed in the handlers' `params` dicts:
the source stores Python ints for offset/limit and strings for the rest. -/
inductive PValue where
  | int (n : Int)
  | str (s : String)
deriving DecidableEq

/-- HTTP method of an upstream call. -/
inductive Method where
  | get
  | post
deriving DecidableEq

/-- The upstream request issued through the shared `httpx` client:
path relative to the base URL, query params, optional JSON body. -/
structure UpstreamRequest where
  method : Method
  path : String
  params : List (String × PValue)
  body : Option Json

/-- Outcome of an upstream call: either a response (status code and decoded
JSON body) or a transport error (`timedOut = true` for `httpx` timeouts,
`false` for other connection failures). -/
inductive UpstreamResult where
  | response (status : Nat) (body : Json)
  | transportError (timedOut : Bool)

/-- The response the local caller receives.
`validationError` is FastAPI's 422 for malformed request input;
`httpError s d` is a raised `HTTPException(s, d)`;
`serverError` is the framework's generic 500 for an unhandled exception
(uncaught transport error, or response-model validation failure). -/
inductive LocalResponse where
  | ok (status : Nat) (body : Json)
  | validationError
  | httpError (status : Nat) (detail : String)
  | serverError

/-- An oracle standing for the shared outbound client. -/
abbrev Upstream := UpstreamRequest → UpstreamResult

section PydanticEmbedding

/-- A field validator: receives the object lookup result (`none` when the
field is absent) and returns the validated, serialized value, or `none` on
validation failure. -/
abbrev FieldV := Option Json → Option Json

/-- pydantic `str` (non-strict): strings pass through, numbers and booleans
coerce via Python `str()`. -/
def vStr : Json → Option Json
  | .str s => some (.str s)
  | .num n => some (.str (toString n))
  | .bool b => some (.str (if b then "True" else "False"))
  | _ => none

/-- ASCII whitespace stripped by Python's numeric-string conversions
(`int()` and `float()` strip surrounding whitespace). -/
def pySpace (c : Char) : Bool :=
  c == ' ' || c == '\t' || c == '\n' || c == '\r' || c == '\x0B' || c == '\x0C'

/-- Surrounding-whitespace stripping of a numeric string. -/
def pyStrip (s : String) : List Char :=
  ((s.toList.dropWhile pySpace).reverse.dropWhile pySpace).reverse

/-- Leading sign of a numeric string: `(negative, rest)`. -/
def splitSign : List Char → Bool × List Char
  | '+' :: r => (false, r)
  | '-' :: r => (true, r)
  | cs => (false, cs)

/-- Checks the PEP 515 underscore rule after the first character: every
underscore must sit between two digits. -/
def underscoresOkFrom : Char → List Char → Bool
  | _, [] => true
  | prev, '_' :: rest =>
      match rest with
      | [] => false
      | nxt :: rest2 => prev.isDigit && nxt.isDigit && underscoresOkFrom nxt rest2
  | _, c :: rest => underscoresOkFrom c rest

/-- Checks the PEP 515 underscore rule for a whole numeric string: Python
`int()` and `float()` accept underscores only between digits. -/
def underscoresOk : List Char → Bool
  | [] => true
  | '_' :: _ => false
  | c :: rest => underscoresOkFrom c rest

/-- Decimal value of a digit string. -/
def digitsToNat (cs : List Char) : Nat :=
  cs.foldl (fun a c => a * 10 + (c.toNat - 48)) 0

/-- Integer truncation of `n × 10 ^ e` (the representation of a decimal
float literal's value in the integer-modelled numeric domain). -/
def scaledTrunc (n : Nat) (e : Int) : Int :=
  if 0 ≤ e then (n : Int) * (10 : Int) ^ e.toNat
  else ((n / 10 ^ (-e).toNat : Nat) : Int)

/-- Exponent suffix of a Python float literal: empty, or `e`/`E`, an
optional sign and at least one digit; yields the exponent's value. -/
def parseExpVal : List Char → Option Int
  | [] => some 0
  | c :: rest =>
      if c = 'e' ∨ c = 'E' then
        let (neg, ds) := splitSign rest
        if ds ≠ [] ∧ ds.all Char.isDigit then
          some (if neg then -(digitsToNat ds : Int) else (digitsToNat ds : Int))
        else none
      else none

/-- Unsigned decimal float literal (underscores already removed): digits
with an optional fraction and exponent, at least one mantissa digit; yields
the truncated integer value. -/
def parseDec (cs : List Char) : Option Int :=
  let (ip, rest) := cs.span Char.isDigit
  match rest with
  | '.' :: rest2 =>
      let (fp, rest3) := rest2.span Char.isDigit
      if ip = [] ∧ fp = [] then none
      else (parseExpVal rest3).map fun e =>
        scaledTrunc (digitsToNat (ip ++ fp)) (e - fp.length)
  | _ =>
      if ip = [] then none
      else (parseExpVal rest).map fun e => scaledTrunc (digitsToNat ip) e

/-- Python `float(s)` on the ASCII string domain: surrounding whitespace and
a sign, then a decimal literal with PEP 515 underscores, or an
infinity/nan word.  `some` exactly when `float(s)` succeeds; the value is
the literal's integer truncation (non-integral and nonfinite float values
lie outside the integer-modelled numeric domain; no claim depends on
float-typed field values, only on acceptance). -/
def pyFloatOfString (s : String) : Option Int :=
  let cs0 := pyStrip s
  let (neg, cs1) := splitSign cs0
  let l := cs1.map Char.toLower
  if l = "inf".toList ∨ l = "infinity".toList ∨ l = "nan".toList then some 0
  else if underscoresOk cs1 then
    (parseDec (cs1.filter (fun c => c ≠ '_'))).map fun v => if neg then -v else v
  else none

/-- Python `int(s)` on the ASCII string domain: surrounding whitespace, a
sign, then digits with PEP 515 underscores. -/
def pyIntOfString (s : String) : Option Int :=
  let cs0 := pyStrip s
  let (neg, cs1) := splitSign cs0
  if underscoresOk cs1 then
    let ds := cs1.filter (fun c => c ≠ '_')
    if ds ≠ [] ∧ ds.all Char.isDigit then
      some (if neg then -(digitsToNat ds : Int) else (digitsToNat ds : Int))
    else none
  else none

/-- pydantic `int` (non-strict): ints pass, booleans coerce, and strings go
through Python `int()`. -/
def vInt : Json → Option Json
  | .num n => some (.num n)
  | .bool b => some (.num (if b then 1 else 0))
  | .str s => (pyIntOfString s).map Json.num
  | _ => none

/-- pydantic `float` (non-strict) over the integer-modelled numeric domain:
numbers and booleans pass, and strings are accepted exactly when Python
`float()` accepts them. -/
def vFloat : Json → Option Json
  | .num n => some (.num n)
  | .bool b => some (.num (if b then 1 else 0))
  | .str s => (pyFloatOfString s).map Json.num
  | _ => none

/-- pydantic `bool`: booleans pass, 0/1 coerce, a small set of strings parse. -/
def vBool : Json → Option Json
  | .bool b => some (.bool b)
  | .num 0 => some (.bool false)
  | .num 1 => some (.bool true)
  | .str s =>
      let l := s.toLower
      if l = "1" ∨ l = "on" ∨ l = "t" ∨ l = "true" ∨ l = "y" ∨ l = "yes" then
        some (.bool true)
      else if l = "0" ∨ l = "off" ∨ l = "f" ∨ l = "false" ∨ l = "n" ∨ l = "no" then
        some (.bool false)
      else none
  | _ => none

/-- pydantic `Any`: everything passes unchanged. -/
def vAny : Json → Option Json := fun j => some j

/-- Candidate key/value pair from one element of an iterable handed to
Python `dict(v)`: a two-element array whose key is hashable (any JSON
scalar; arrays and objects are unhashable), or a two-character string
(iterating it yields its two characters). -/
def pyPairElem : Json → Option (Json × Json)
  | .arr [k, v] =>
      match k with
      | .arr _ => none
      | .obj _ => none
      | _ => some (k, v)
  | .str s => if s.length = 2 then some (.str (s.take 1), .str (s.drop 1)) else none
  | _ => none

/-- Python equality on hashable JSON scalars used as dict keys: booleans
equal their 0/1 integers; strings, numbers and `None` otherwise compare
within their own kind. -/
def pyKeyEq : Json → Json → Bool
  | .str a, .str b => a == b
  | .num a, .num b => a == b
  | .bool a, .bool b => a == b
  | .bool a, .num b => (if a then (1 : Int) else 0) == b
  | .num a, .bool b => a == (if b then (1 : Int) else 0)
  | .null, .null => true
  | _, _ => false

/-- Python dict insertion: an equal key already present keeps its position
and identity and takes the new value; a new key is appended. -/
def pyDictInsert (acc : List (Json × Json)) (p : Json × Json) : List (Json × Json) :=
  if acc.any (fun q => pyKeyEq q.1 p.1) then
    acc.map (fun q => if pyKeyEq q.1 p.1 then (q.1, p.2) else q)
  else acc ++ [p]

/-- Python `dict(v)` on a non-dict JSON value: a list of key/value pairs
builds a dict (last value wins for duplicate keys), the empty string builds
the empty dict (its iteration is empty), and everything else raises. -/
def pyDict : Json → Option (List (Json × Json))
  | .arr elems => (elems.mapM pyPairElem).map (fun ps => ps.foldl pyDictInsert [])
  | .str s => if s = "" then some [] else none
  | _ => none

/-- JSON object-key text of a Python dict key, as `json.dumps` emits it for
non-string keys (numbers print decimally, booleans as `true`/`false` and
`None` as `null`; unhashable keys never reach rendering). -/
def jsonKeyRender : Json → String
  | .str s => s
  | .num n => toString n
  | .bool b => if b then "true" else "false"
  | _ => "null"

/-- pydantic `dict` (v1 `dict_validator`): a JSON object passes unchanged;
any other value goes through Python `dict(v)` — so e.g. a JSON array of
two-element pairs is accepted — and its keys are rendered as JSON object
keys by the response encoding. -/
def vDict : Json → Option Json
  | .obj kvs => some (.obj kvs)
  | j => (pyDict j).map (fun ps => .obj (ps.map (fun p => (jsonKeyRender p.1, p.2))))

/-- Element-wise validation of a list, failing if any element fails. -/
def vElems (f : Json → Option Json) : List Json → Option (List Json)
  | [] => some []
  | x :: xs =>
      match f x, vElems f xs with
      | some y, some ys => some (y :: ys)
      | _, _ => none

/-- pydantic `List[X]`: element-wise validation of a JSON array. -/
def vList (f : Json → Option Json) : Json → Option Json
  | .arr xs => (vElems f xs).map Json.arr
  | _ => none

/-- A required field (annotation without `Optional`, no default). -/
def req (f : Json → Option Json) : FieldV
  | some j => f j
  | none => none

/-- An `Optional[X]` field: in pydantic v1 it carries the implicit default
`None`, so an absent field and an explicit `null` both validate to `null`. -/
def opt (f : Json → Option Json) : FieldV
  | some .null => some .null
  | some j => f j
  | none => some .null

/-- Validate an object against a model's field list, producing the serialized
field list (declared order, absent optionals materialized as `null`,
undeclared extras dropped). -/
def vFieldsAux : List (String × FieldV) → List (String × Json) → Option (List (String × Json))
  | [], _ => some []
  | (k, fv) :: rest, kvs =>
      match fv (jlookup kvs k), vFieldsAux rest kvs with
      | some v, some out => some ((k, v) :: out)
      | _, _ => none

/-- Validate a JSON value against a pydantic model (a field-validator list). -/
def vModel (fs : List (String × FieldV)) : Json → Option Json
  | .obj kvs => (vFieldsAux fs kvs).map Json.obj
  | _ => none

end PydanticEmbedding

section Models

/-- Embeds `class ConfigResponse(BaseModel)` of src/reload.py. -/
def ConfigResponse : List (String × FieldV) :=
  [("commission", req vStr),
   ("user_cashback", req vStr),
   ("deposit_wallet", req vStr),
   ("usdt_course", req vStr)]

/-- Embeds `class WalletLimits(BaseModel)`. -/
def WalletLimits : List (String × FieldV) :=
  [("max_per_transaction", req vStr),
   ("max_daily", req vStr),
   ("daily_used", req vStr),
   ("daily_remaining", req vStr)]

/-- Embeds `class NFTAttribute(BaseModel)`.  Its `value: Any` field is not
required: pydantic v1 gives `Any`-annotated fields an implicit `None`
default, so an attribute object without a `value` key validates and
serializes `value` as `null`. -/
def NFTAttribute : List (String × FieldV) :=
  [("type", req vStr),
   ("value", opt vAny),
   ("rarity_per_mille", req vFloat)]

/-- Embeds `class NFTInfo(BaseModel)`. -/
def NFTInfo : List (String × FieldV) :=
  [("id", req vStr),
   ("name", req vStr),
   ("photo_url", opt vStr),
   ("collection_id", req vStr),
   ("external_collection_number", req vInt),
   ("status", req vStr),
   ("animation_url", opt vStr),
   ("has_animation", req vBool),
   ("attributes", req (vList (vModel NFTAttribute))),
   ("emoji_id", opt vStr),
   ("is_owned", opt vBool),
   ("floor_price", opt vStr)]

/-- Embeds `class WalletAction(BaseModel)`. -/
def WalletAction : List (String × FieldV) :=
  [("type", req vStr),
   ("from_wallet", req vStr),
   ("added_at", req vStr),
   ("amount", req vStr),
   ("tx_hash", opt vStr),
   ("tx_lt", opt vStr),
   ("balance_before", req vStr),
   ("balance_after", req vStr),
   ("related_entity_id", opt vStr),
   ("related_entity_type", opt vStr),
   ("description", req vStr),
   ("nft", opt (vModel NFTInfo))]

/-- Embeds `class WalletHistoryResponse(BaseModel)`. -/
def WalletHistoryResponse : List (String × FieldV) :=
  [("actions", req (vList (vModel WalletAction)))]

/-- Embeds `class WalletBalance(BaseModel)`. -/
def WalletBalance : List (String × FieldV) :=
  [("balance", req vStr),
   ("frozen_funds", req vStr)]

/-- Embeds `class NFTItem(BaseModel)`. -/
def NFTItem : List (String × FieldV) :=
  [("id", req vStr),
   ("tg_id", req vStr),
   ("collection_id", req vStr),
   ("external_collection_number", req vInt),
   ("name", req vStr),
   ("photo_url", opt vStr),
   ("price", opt vStr),
   ("attributes", req (vList (vModel NFTAttribute))),
   ("listed_at", req vStr),
   ("status", req vStr),
   ("animation_url", opt vStr),
   ("emoji_id", opt vStr),
   ("has_animation", req vBool),
   ("unlocks_at", req vStr)]

/-- Embeds `class NFTListResponse(BaseModel)`. -/
def NFTListResponse : List (String × FieldV) :=
  [("nfts", req (vList (vModel NFTItem)))]

/-- Embeds `class Backdrop(BaseModel)`. -/
def Backdrop : List (String × FieldV) :=
  [("name", req vStr),
   ("url", req vStr),
   ("centerColor", req vInt),
   ("edgeColor", req vInt),
   ("patternColor", req vInt),
   ("textColor", req vInt),
   ("rarityPermille", req vFloat),
   ("hex", req vDict)]

/-- Embeds `class FloorPricesResponse(BaseModel)`. -/
def FloorPricesResponse : List (String × FieldV) :=
  [("floorPrices", req vDict)]

/-- Embeds `class BuyPayload(BaseModel)`: `nft_details: List[dict]` — entries are
arbitrary dicts, no per-entry shape constraint. -/
def BuyPayload : List (String × FieldV) :=
  [("nft_details", req (vList vDict))]

/-- Embeds `class WithdrawPayload(BaseModel)`. -/
def WithdrawPayload : List (String × FieldV) :=
  [("gift_ids", req (vList vStr))]

/-- Embeds `class UserActionMetadata(BaseModel)`. -/
def UserActionMetadata : List (String × FieldV) :=
  [("seller_revenue", opt vStr),
   ("cashback_amount", opt vStr)]

/-- Embeds `class UserAction(BaseModel)`. -/
def UserAction : List (String × FieldV) :=
  [("initiator_user_id", req vInt),
   ("nft_id", req vStr),
   ("offer_id", opt vStr),
   ("type", req vStr),
   ("amount", req vStr),
   ("created_at", req vStr),
   ("referrer_revenue", opt vStr),
   ("collection_id", req vStr),
   ("metadata", req (vModel UserActionMetadata)),
   ("nft", opt (vModel NFTInfo))]

/-- Embeds `class UserActionsResponse(BaseModel)`. -/
def UserActionsResponse : List (String × FieldV) :=
  [("actions", req (vList (vModel UserAction)))]

end Models

section Routes

/-- Translate the upstream result for a GET route whose accepted status set is
`{200}`: the source raises `HTTPException(resp.status_code, msg)` on any other
status, and otherwise returns `resp.json()`, which FastAPI then validates and
serializes against the declared response model (`v`); a validation failure
there, like an uncaught transport error, becomes the framework's 500. -/
def getTranslate (msg : String) (v : Json → Option Json) : UpstreamResult → LocalResponse
  | .transportError _ => .serverError
  | .response st b =>
      if st = 200 then
        match v b with
        | some out => .ok 200 out
        | none => .serverError
      else .httpError st msg

/-- Translate the upstream result for the two POST routes, whose accepted
status set is `{200, 201}` (`if resp.status_code not in (200, 201)`); their
`response_model=Any`, so the body passes through unchanged. -/
def postTranslate (msg : String) : UpstreamResult → LocalResponse
  | .transportError _ => .serverError
  | .response st b =>
      if st = 200 ∨ st = 201 then .ok 200 b else .httpError st msg

/-- FastAPI `offset: int = Query(dOff, ge=0), limit: int = Query(dLim, ge=1)`:
absent parameters take the declared defaults; a negative offset or
non-positive limit fails request validation (422) before the handler runs. -/
def parseOffsetLimit (dOff dLim : Int) (offsetQ limitQ : Option Int) : Option (Int × Int) :=
  let o := offsetQ.getD dOff
  let l := limitQ.getD dLim
  if 0 ≤ o ∧ 1 ≤ l then some (o, l) else none

/-- Route `GET /market/config` → upstream `GET /market/config`. -/
def get_config (call : Upstream) : LocalResponse :=
  getTranslate "Failed to fetch config" (vModel ConfigResponse)
    (call { method := .get, path := "/market/config", params := [], body := none })

/-- Route `GET /market/wallets/limits` → upstream `GET /users/wallets/limits`. -/
def get_wallet_limits (call : Upstream) : LocalResponse :=
  getTranslate "Failed to fetch wallet limits" (vModel WalletLimits)
    (call { method := .get, path := "/users/wallets/limits", params := [], body := none })

/-- The `params` dict built by `get_wallet_history`: offset and limit always,
`types` only when truthy (present and non-empty). -/
def historyParams (offset limit : Int) (types : Option String) : List (String × PValue) :=
  [("offset", .int offset), ("limit", .int limit)] ++
    match types with
    | some t => if t = "" then [] else [("types", .str t)]
    | none => []

/-- Route `GET /market/wallets/history` → upstream `GET /users/wallets/history`.
Query defaults: offset 0, limit 30. -/
def get_wallet_history (call : Upstream) (offsetQ limitQ : Option Int)
    (typesQ : Option String) : LocalResponse :=
  match parseOffsetLimit 0 30 offsetQ limitQ with
  | none => .validationError
  | some (o, l) =>
      getTranslate "Failed to fetch wallet history" (vModel WalletHistoryResponse)
        (call { method := .get, path := "/users/wallets/history",
                params := historyParams o l typesQ, body := none })

/-- Route `GET /market/wallets/balance` → upstream `GET /users/wallets/`. -/
def get_wallet_balance (call : Upstream) : LocalResponse :=
  getTranslate "Failed to fetch wallet balance" (vModel WalletBalance)
    (call { method := .get, path := "/users/wallets/", params := [], body := none })

/-- Route `GET /market/nfts` → upstream `GET /nfts`. -/
def list_nfts (call : Upstream) : LocalResponse :=
  getTranslate "Failed to list NFTs" (vModel NFTListResponse)
    (call { method := .get, path := "/nfts", params := [], body := none })

/-- The resolved query arguments of `search_nfts` after FastAPI applies
defaults and constraints. -/
structure SearchArgs where
  offset : Int
  limit : Int
  filter_by_collections : Option String
  filter_by_backdrops : Option String
  filter_by_symbols : Option String
  filter_by_models : Option String
  sort_by : String
  status : String

/-- Query parsing for `search_nfts`: `offset: int = Query(0, ge=0)`,
`limit: int = Query(20, ge=1)`, optional filters pass through, and
`sort_by`/`status` default to "price asc"/"listed" when absent. -/
def parseSearchQuery (offsetQ limitQ : Option Int) (c b s m : Option String)
    (sortQ statusQ : Option String) : Option SearchArgs :=
  let o := offsetQ.getD 0
  let l := limitQ.getD 20
  if 0 ≤ o ∧ 1 ≤ l then
    some { offset := o, limit := l,
           filter_by_collections := c, filter_by_backdrops := b,
           filter_by_symbols := s, filter_by_models := m,
           sort_by := sortQ.getD "price asc", status := statusQ.getD "listed" }
  else none

/-- Truthiness check `if value:` — a filter is added to the `params` dict only when truthy. -/
def optFilter (k : String) : Option String → List (String × PValue)
  | some s => if s = "" then [] else [(k, .str s)]
  | none => []

/-- The `params` dict built by `search_nfts`: offset, limit, sort_by, status
always; each `filter_by_*` only when truthy. -/
def searchParams (a : SearchArgs) : List (String × PValue) :=
  [("offset", .int a.offset), ("limit", .int a.limit),
   ("sort_by", .str a.sort_by), ("status", .str a.status)] ++
    optFilter "filter_by_collections" a.filter_by_collections ++
    optFilter "filter_by_backdrops" a.filter_by_backdrops ++
    optFilter "filter_by_symbols" a.filter_by_symbols ++
    optFilter "filter_by_models" a.filter_by_models

/-- Route `GET /market/nfts/search` → upstream `GET /nfts/search`
(`response_model=Any`: success body passes through unchanged). -/
def search_nfts (call : Upstream) (offsetQ limitQ : Option Int)
    (c b s m : Option String) (sortQ statusQ : Option String) : LocalResponse :=
  match parseSearchQuery offsetQ limitQ c b s m sortQ statusQ with
  | none => .validationError
  | some a =>
      getTranslate "Failed to search NFTs" vAny
        (call { method := .get, path := "/nfts/search",
                params := searchParams a, body := none })

/-- Route `GET /market/collections/backdrops` → upstream
`GET /collections/filters/backdrops`, response model `List[Backdrop]`. -/
def get_backdrops (call : Upstream) : LocalResponse :=
  getTranslate "Failed to fetch backdrops" (vList (vModel Backdrop))
    (call { method := .get, path := "/collections/filters/backdrops",
            params := [], body := none })

/-- Route `GET /market/collections/backdrops/floor` → upstream
`GET /collections/filters/backdrops/floor`. -/
def get_backdrops_floor (call : Upstream) : LocalResponse :=
  getTranslate "Failed to fetch floor prices" (vModel FloorPricesResponse)
    (call { method := .get, path := "/collections/filters/backdrops/floor",
            params := [], body := none })

/-- Route `POST /market/nfts/buy` → upstream `POST /nfts` with body
`payload.dict()`; an invalid request body is FastAPI's 422. -/
def buy_nfts (call : Upstream) (body : Json) : LocalResponse :=
  match vModel BuyPayload body with
  | none => .validationError
  | some payload =>
      postTranslate "Failed to buy NFT(s)"
        (call { method := .post, path := "/nfts", params := [], body := some payload })

/-- Route `POST /market/nfts/withdraw` → upstream `POST /nfts/withdraw`. -/
def withdraw_nfts (call : Upstream) (body : Json) : LocalResponse :=
  match vModel WithdrawPayload body with
  | none => .validationError
  | some payload =>
      postTranslate "Failed to withdraw NFT(s)"
        (call { method := .post, path := "/nfts/withdraw", params := [],
                body := some payload })

/-- Route `GET /market/users/actions` → upstream `GET /users/actions/`.
Query defaults: offset 0, limit 20. -/
def get_user_actions (call : Upstream) (offsetQ limitQ : Option Int) : LocalResponse :=
  match parseOffsetLimit 0 20 offsetQ limitQ with
  | none => .validationError
  | some (o, l) =>
      getTranslate "Failed to fetch user actions" (vModel UserActionsResponse)
        (call { method := .get, path := "/users/actions/",
                params := [("offset", .int o), ("limit", .int l)], body := none })

end Routes

/-- First-match lookup in a query-parameter mapping. -/
def plookup : List (String × PValue) → String → Option PValue
  | [], _ => none
  | (k, v) :: rest, key => if k = key then some v else plookup rest key

section ValidationLemmas

/-- A successful `vStr` always yields a JSON string (the pydantic `str`
coercions all target strings). -/
theorem vStr_isStr {j v : Json} (h : vStr j = some v) : ∃ s, v = Json.str s := by
  cases j <;> simp [vStr] at h <;> exact ⟨_, h.symm⟩

/-- A required field validates only when present. -/
theorem req_some {f : Json → Option Json} {o : Option Json} {v : Json}
    (h : req f o = some v) : ∃ j, o = some j ∧ f j = some v := by
  cases o with
  | none => simp [req] at h
  | some j => exact ⟨j, rfl, h⟩

/-- An `Optional` field that is absent serializes as an explicit `null`
(pydantic v1 implicit `None` default). -/
theorem opt_absent (f : Json → Option Json) : opt f none = some Json.null := rfl

/-- An `Optional` field that arrives as `null` stays `null`. -/
theorem opt_null (f : Json → Option Json) : opt f (some Json.null) = some Json.null := rfl

/-- Every declared field of a successfully validated object appears in the
output with the value its field validator produced. -/
theorem vFieldsAux_mem {fs : List (String × FieldV)} {kvs : List (String × Json)}
    {out : List (String × Json)} (h : vFieldsAux fs kvs = some out)
    {k : String} {fv : FieldV} (hm : (k, fv) ∈ fs) :
    ∃ v, fv (jlookup kvs k) = some v ∧ (k, v) ∈ out := by
  induction fs generalizing out with
  | nil => cases hm
  | cons hd tl ih =>
      obtain ⟨k0, fv0⟩ := hd
      simp only [vFieldsAux] at h
      cases h0 : fv0 (jlookup kvs k0) with
      | none => rw [h0] at h; exact absurd h (by simp)
      | some v0 =>
          rw [h0] at h
          cases h1 : vFieldsAux tl kvs with
          | none => rw [h1] at h; exact absurd h (by simp)
          | some out0 =>
              rw [h1] at h
              simp only [Option.some.injEq] at h
              subst h
              rcases List.mem_cons.mp hm with heq | htl
              · obtain ⟨hk, hf⟩ := Prod.mk.injEq .. ▸ heq
                subst hk; subst hf
                exact ⟨v0, h0, List.mem_cons_self _ _⟩
              · obtain ⟨v, hv, hmem⟩ := ih h1 htl
                exact ⟨v, hv, List.mem_cons_of_mem _ hmem⟩

/-- Validation output carries exactly the declared field names, in order. -/
theorem vFieldsAux_keys {fs : List (String × FieldV)} {kvs : List (String × Json)}
    {out : List (String × Json)} (h : vFieldsAux fs kvs = some out) :
    out.map Prod.fst = fs.map Prod.fst := by
  induction fs generalizing out with
  | nil => simp [vFieldsAux] at h; subst h; rfl
  | cons hd tl ih =>
      obtain ⟨k0, fv0⟩ := hd
      simp only [vFieldsAux] at h
      cases h0 : fv0 (jlookup kvs k0) with
      | none => rw [h0] at h; exact absurd h (by simp)
      | some v0 =>
          rw [h0] at h
          cases h1 : vFieldsAux tl kvs with
          | none => rw [h1] at h; exact absurd h (by simp)
          | some out0 =>
              rw [h1] at h
              simp only [Option.some.injEq] at h
              subst h
              simp [ih h1]

/-- In an object whose keys are distinct, lookup finds any member. -/
theorem jlookup_eq_of_mem {xs : List (String × Json)} {k : String} {v : Json}
    (hm : (k, v) ∈ xs) (hn : (xs.map Prod.fst).Nodup) : jlookup xs k = some v := by
  induction xs with
  | nil => cases hm
  | cons hd tl ih =>
      obtain ⟨k0, v0⟩ := hd
      rcases List.mem_cons.mp hm with heq | htl
      · obtain ⟨hk, hv⟩ := Prod.mk.injEq .. ▸ heq
        subst hk; subst hv
        simp [jlookup]
      · have hk0 : k0 ≠ k := by
          intro hk; subst hk
          exact (List.nodup_cons.mp hn).1 (List.mem_map.mpr ⟨(k0, v), htl, rfl⟩)
        simp only [jlookup, if_neg hk0]
        exact ih htl (List.nodup_cons.mp hn).2

/-- Field access on the serialized output of a model with distinct field
names: the value is whatever the field validator returned. -/
theorem vModel_get {fs : List (String × FieldV)} {j out : Json}
    (h : vModel fs j = some out) (hn : (fs.map Prod.fst).Nodup)
    {k : String} {fv : FieldV} (hm : (k, fv) ∈ fs) :
    ∃ kvs v, j = Json.obj kvs ∧ fv (jlookup kvs k) = some v ∧ out.get k = some v := by
  cases j with
  | obj kvs =>
      cases hx : vFieldsAux fs kvs with
      | none => simp [vModel, hx] at h
      | some l =>
          have hout : out = Json.obj l := by
            simp [vModel, hx] at h; exact h.symm
          obtain ⟨v, hv, hmem⟩ := vFieldsAux_mem hx hm
          refine ⟨kvs, v, rfl, hv, ?_⟩
          subst hout
          have hkeys : (l.map Prod.fst).Nodup := by
            rw [vFieldsAux_keys hx]; exact hn
          simpa [Json.get] using jlookup_eq_of_mem hmem hkeys
  | null => simp [vModel] at h
  | bool b => simp [vModel] at h
  | num n => simp [vModel] at h
  | str s => simp [vModel] at h
  | arr xs => simp [vModel] at h

/-- Lookup distributes over appended parameter segments. -/
theorem plookup_append (xs ys : List (String × PValue)) (k : String) :
    plookup (xs ++ ys) k =
      match plookup xs k with
      | some v => some v
      | none => plookup ys k := by
  induction xs with
  | nil => rfl
  | cons hd tl ih =>
      obtain ⟨k0, v0⟩ := hd
      by_cases h : k0 = k
      · simp [plookup, h]
      · simp [plookup, h, ih]

/-- A filter segment for a different key never answers a lookup. -/
theorem plookup_optFilter_ne {k k2 : String} (h : k2 ≠ k) (o : Option String) :
    plookup (optFilter k2 o) k = none := by
  cases o with
  | none => rfl
  | some s =>
      by_cases hs : s = ""
      · simp [optFilter, hs, plookup]
      · simp [optFilter, hs, plookup, h]

/-- A key held by no entry of a parameter mapping is absent from it. -/
theorem plookup_eq_none {xs : List (String × PValue)} {k : String}
    (h : ∀ p ∈ xs, p.1 ≠ k) : plookup xs k = none := by
  induction xs with
  | nil => rfl
  | cons hd tl ih =>
      obtain ⟨k0, v0⟩ := hd
      have hhd : k0 ≠ k := h (k0, v0) (List.mem_cons_self _ _)
      simp only [plookup, if_neg hhd]
      exact ih fun p hp => h p (List.mem_cons_of_mem _ hp)

/-- An absent filter contributes nothing to the parameter mapping. -/
theorem optFilter_none (k : String) : optFilter k none = [] := rfl

/-- Entries contributed by a filter segment carry that filter's key. -/
theorem optFilter_key {p : String × PValue} {k : String} {o : Option String}
    (h : p ∈ optFilter k o) : p.1 = k := by
  cases o with
  | none => cases h
  | some s =>
      by_cases hs : s = ""
      · simp [optFilter, hs] at h
      · simp [optFilter, hs] at h
        simp [h]

/-- A `req vStr` field of a validated model serializes as a JSON string. -/
theorem vModel_str_field {fs : List (String × FieldV)} {j out : Json} {k : String}
    (h : vModel fs j = some out) (hn : (fs.map Prod.fst).Nodup)
    (hm : (k, req vStr) ∈ fs) : ∃ s, out.get k = some (.str s) := by
  obtain ⟨kvs, v, hj, hfv, hget⟩ := vModel_get h hn hm
  obtain ⟨j0, hj0, hv⟩ := req_some hfv
  obtain ⟨s, hs⟩ := vStr_isStr hv
  exact ⟨s, hs ▸ hget⟩

/-- An `Optional` field that arrives `null` or absent serializes as `null`. -/
theorem vModel_opt_field_null {fs : List (String × FieldV)} {j out : Json}
    {k : String} {f : Json → Option Json}
    (h : vModel fs j = some out) (hn : (fs.map Prod.fst).Nodup)
    (hm : (k, opt f) ∈ fs)
    (habs : j.get k = some Json.null ∨ j.get k = none) :
    out.get k = some Json.null := by
  obtain ⟨kvs, v, hj, hfv, hget⟩ := vModel_get h hn hm
  subst hj
  simp only [Json.get] at habs
  rcases habs with hn1 | hn1 <;> rw [hn1] at hfv
  · rw [opt_null] at hfv
    obtain rfl : Json.null = v := Option.some.injEq .. ▸ hfv
    exact hget
  · rw [opt_absent] at hfv
    obtain rfl : Json.null = v := Option.some.injEq .. ▸ hfv
    exact hget

/-- A required field that is absent fails the whole field-list validation
(in every pydantic version; no coercion can supply a missing field). -/
theorem vFieldsAux_req_absent {fs : List (String × FieldV)} {kvs : List (String × Json)}
    {k : String} {f : Json → Option Json}
    (hm : (k, req f) ∈ fs) (h : jlookup kvs k = none) : vFieldsAux fs kvs = none := by
  induction fs with
  | nil => cases hm
  | cons hd tl ih =>
      obtain ⟨k0, fv0⟩ := hd
      rcases List.mem_cons.mp hm with heq | htl
      · obtain ⟨hk, hf⟩ := Prod.mk.injEq .. ▸ heq
        subst hk; subst hf
        cases h1 : vFieldsAux tl kvs <;> simp [vFieldsAux, h, req, h1]
      · cases h0 : fv0 (jlookup kvs k0) <;> simp [vFieldsAux, h0, ih htl]

/-- A model rejects an object missing one of its required fields. -/
theorem vModel_req_absent {fs : List (String × FieldV)} {kvs : List (String × Json)}
    {k : String} {f : Json → Option Json}
    (hm : (k, req f) ∈ fs) (h : jlookup kvs k = none) :
    vModel fs (.obj kvs) = none := by
  simp [vModel, vFieldsAux_req_absent hm h]

/-- A list validator rejects a list whose head element fails. -/
theorem vList_head_fail {f : Json → Option Json} {x : Json} {xs : List Json}
    (h : f x = none) : vList f (.arr (x :: xs)) = none := by
  simp [vList, vElems, h]

/-- Validation of `List[dict]` passes a list of JSON objects through unchanged. -/
theorem vElems_vDict_id {entries : List Json}
    (h : ∀ e ∈ entries, ∃ kvs, e = Json.obj kvs) : vElems vDict entries = some entries := by
  induction entries with
  | nil => rfl
  | cons x xs ih =>
      obtain ⟨kvs, hx⟩ := h x (List.mem_cons_self x xs)
      have htl := ih fun e he => h e (List.mem_cons_of_mem x he)
      subst hx
      simp [vElems, vDict, htl]

end ValidationLemmas

section Claims

/-- C1: the claim asks that a transport error (upstream unreachable or timed
out) on the upstream call be mapped to an upstream-error response with a
timeout-indicating status.  The handlers never catch the HTTP client's
exceptions, so a timeout on the upstream call of `search_nfts` propagates
and surfaces only as the framework's generic 500 internal-server-error
response — not an upstream-error response with a timeout-indicating status.
This theorem evaluates the embedded route at the failing input. -/
theorem search_nfts_timeout_gives_generic_500 :
    search_nfts (fun _ => .transportError true)
      none none none none none none none none = .serverError := rfl

/-- C2: for `/wallets/history`, `/nfts/search` and `/users/actions`, a
negative offset or a non-positive limit is rejected with the local 422
validation error, for every upstream oracle — hence without an upstream
call. -/
theorem invalid_offset_limit_rejected_locally (call : Upstream) (offset limit : Int)
    (h : offset < 0 ∨ limit < 1) :
    (∀ types, get_wallet_history call (some offset) (some limit) types =
        .validationError) ∧
    (∀ c b s m sortQ statusQ,
        search_nfts call (some offset) (some limit) c b s m sortQ statusQ =
          .validationError) ∧
    get_user_actions call (some offset) (some limit) = .validationError := by
  have hno : ¬ (0 ≤ offset ∧ 1 ≤ limit) := by omega
  refine ⟨fun types => ?_, fun c b s m sortQ statusQ => ?_, ?_⟩ <;>
    simp [get_wallet_history, get_user_actions, search_nfts, parseOffsetLimit,
          parseSearchQuery, hno]

/-- C2 witness: offset -1 with limit 30 is rejected locally. -/
theorem invalid_offset_limit_rejected_locally_witness :
    get_wallet_history (fun _ => .response 200 .null) (some (-1)) (some 30) none =
      .validationError :=
  (invalid_offset_limit_rejected_locally (fun _ => .response 200 .null) (-1) 30
    (Or.inl (by norm_num))).1 none

/-- C4: for `POST /nfts/buy` and `POST /nfts/withdraw`, an upstream status of
200 or 201 is success (the decoded upstream body is returned), and every
other upstream status yields a local error carrying that status. -/
theorem buy_withdraw_accept_200_201 (pb pl qb ql rb : Json) (st : Nat)
    (hb : vModel BuyPayload pb = some pl) (hw : vModel WithdrawPayload qb = some ql) :
    ((st = 200 ∨ st = 201) →
      buy_nfts (fun _ => .response st rb) pb = .ok 200 rb ∧
      withdraw_nfts (fun _ => .response st rb) qb = .ok 200 rb) ∧
    (¬ (st = 200 ∨ st = 201) →
      buy_nfts (fun _ => .response st rb) pb =
        .httpError st "Failed to buy NFT(s)" ∧
      withdraw_nfts (fun _ => .response st rb) qb =
        .httpError st "Failed to withdraw NFT(s)") := by
  constructor <;> intro h <;>
    exact ⟨by simp [buy_nfts, hb, postTranslate, h],
           by simp [withdraw_nfts, hw, postTranslate, h]⟩

/-- C4 witness: upstream 201 is success for both POST routes. -/
theorem buy_withdraw_accept_200_201_witness :
    buy_nfts (fun _ => .response 201 .null) (.obj [("nft_details", .arr [])]) =
      .ok 200 .null ∧
    withdraw_nfts (fun _ => .response 201 .null) (.obj [("gift_ids", .arr [])]) =
      .ok 200 .null :=
  (buy_withdraw_accept_200_201 (.obj [("nft_details", .arr [])])
    (.obj [("nft_details", .arr [])]) (.obj [("gift_ids", .arr [])])
    (.obj [("gift_ids", .arr [])]) .null 201 rfl rfl).1 (Or.inr rfl)

/-- C6: `GET /wallets/history` with offset 0 and limit 30, when the upstream
answers 200 with body `{"actions": []}`, returns `{"actions": []}` with
status 200. -/
theorem wallet_history_empty_actions_roundtrip (call : Upstream)
    (h : call { method := .get, path := "/users/wallets/history",
                params := [("offset", .int 0), ("limit", .int 30)], body := none } =
          .response 200 (.obj [("actions", .arr [])])) :
    get_wallet_history call (some 0) (some 30) none =
      .ok 200 (.obj [("actions", .arr [])]) := by
  have hp : parseOffsetLimit 0 30 (some 0) (some 30) = some (0, 30) := rfl
  have hreq : historyParams 0 30 none = [("offset", .int 0), ("limit", .int 30)] := rfl
  simp only [get_wallet_history, hp, hreq, h]
  rfl

/-- C6 witness: concrete upstream oracle answering `{"actions": []}`. -/
theorem wallet_history_empty_actions_roundtrip_witness :
    get_wallet_history (fun _ => .response 200 (.obj [("actions", .arr [])]))
      (some 0) (some 30) none = .ok 200 (.obj [("actions", .arr [])]) :=
  wallet_history_empty_actions_roundtrip _ rfl

/-- C8: for `/wallets/history` and `/nfts/search`, an optional filter supplied
as the empty string behaves exactly like an absent one (the handlers test
truthiness, so the parameter is omitted from the upstream mapping). -/
theorem empty_string_filter_like_absent (call : Upstream) (offsetQ limitQ : Option Int) :
    get_wallet_history call offsetQ limitQ (some "") =
      get_wallet_history call offsetQ limitQ none ∧
    ∀ sortQ statusQ,
      search_nfts call offsetQ limitQ (some "") (some "") (some "") (some "")
          sortQ statusQ =
        search_nfts call offsetQ limitQ none none none none sortQ statusQ := by
  constructor
  · cases hp : parseOffsetLimit 0 30 offsetQ limitQ <;>
      simp [get_wallet_history, hp, historyParams]
  · intro sortQ statusQ
    by_cases hc : 0 ≤ offsetQ.getD 0 ∧ 1 ≤ limitQ.getD 20 <;>
      simp [search_nfts, parseSearchQuery, hc, searchParams, optFilter]

/-- C10: `POST /nfts/buy` accepts arbitrary JSON objects as `nft_details`
entries (no `{id, price}` shape is enforced) and forwards upstream exactly
the wrapper `{"nft_details": [...]}` with the entries unchanged. -/
theorem buy_forwards_arbitrary_objects (entries : List Json)
    (h : ∀ e ∈ entries, ∃ kvs, e = Json.obj kvs) (call : Upstream) :
    vModel BuyPayload (.obj [("nft_details", .arr entries)]) =
      some (.obj [("nft_details", .arr entries)]) ∧
    buy_nfts call (.obj [("nft_details", .arr entries)]) =
      postTranslate "Failed to buy NFT(s)"
        (call { method := .post, path := "/nfts", params := [],
                body := some (.obj [("nft_details", .arr entries)]) }) := by
  have hv : vModel BuyPayload (.obj [("nft_details", .arr entries)]) =
      some (.obj [("nft_details", .arr entries)]) := by
    simp [vModel, vFieldsAux, BuyPayload, jlookup, req, vList, vElems_vDict_id h]
  exact ⟨hv, by simp [buy_nfts, hv]⟩

/-- C10 witness: an entry without `id` or `price` keys is accepted and
forwarded unchanged. -/
theorem buy_forwards_arbitrary_objects_witness :
    vModel BuyPayload (.obj [("nft_details", .arr [.obj [("anything", .num 7)]])]) =
      some (.obj [("nft_details", .arr [.obj [("anything", .num 7)]])]) :=
  (buy_forwards_arbitrary_objects [.obj [("anything", .num 7)]]
    (fun e he => ⟨[("anything", .num 7)], by simpa using he⟩)
    (fun _ => .response 200 .null)).1

/-- C3: for every route, an upstream status outside the operation's accepted
set ({200} for the GET routes, {200, 201} for the two POST routes) yields a
local error carrying the upstream status code unchanged, with the route's
fixed message naming the failed operation. -/
theorem upstream_status_passthrough (st : Nat) (b : Json) :
    (st ≠ 200 →
      get_config (fun _ => .response st b) =
        .httpError st "Failed to fetch config" ∧
      get_wallet_limits (fun _ => .response st b) =
        .httpError st "Failed to fetch wallet limits" ∧
      get_wallet_history (fun _ => .response st b) none none none =
        .httpError st "Failed to fetch wallet history" ∧
      get_wallet_balance (fun _ => .response st b) =
        .httpError st "Failed to fetch wallet balance" ∧
      list_nfts (fun _ => .response st b) =
        .httpError st "Failed to list NFTs" ∧
      search_nfts (fun _ => .response st b) none none none none none none none none =
        .httpError st "Failed to search NFTs" ∧
      get_backdrops (fun _ => .response st b) =
        .httpError st "Failed to fetch backdrops" ∧
      get_backdrops_floor (fun _ => .response st b) =
        .httpError st "Failed to fetch floor prices" ∧
      get_user_actions (fun _ => .response st b) none none =
        .httpError st "Failed to fetch user actions") ∧
    (st ≠ 200 → st ≠ 201 →
      buy_nfts (fun _ => .response st b) (.obj [("nft_details", .arr [])]) =
        .httpError st "Failed to buy NFT(s)" ∧
      withdraw_nfts (fun _ => .response st b) (.obj [("gift_ids", .arr [])]) =
        .httpError st "Failed to withdraw NFT(s)") := by
  have hhist : parseOffsetLimit 0 30 none none = some (0, 30) := rfl
  have hact : parseOffsetLimit 0 20 none none = some (0, 20) := rfl
  have hsearch : parseSearchQuery none none none none none none none none =
      some { offset := 0, limit := 20, filter_by_collections := none,
             filter_by_backdrops := none, filter_by_symbols := none,
             filter_by_models := none, sort_by := "price asc",
             status := "listed" } := rfl
  have hbuy : vModel BuyPayload (.obj [("nft_details", .arr [])]) =
      some (.obj [("nft_details", .arr [])]) := rfl
  have hwd : vModel WithdrawPayload (.obj [("gift_ids", .arr [])]) =
      some (.obj [("gift_ids", .arr [])]) := rfl
  constructor
  · intro h
    refine ⟨?_, ?_, ?_, ?_, ?_, ?_, ?_, ?_, ?_⟩ <;>
      simp [get_config, get_wallet_limits, get_wallet_history, get_wallet_balance,
            list_nfts, search_nfts, get_backdrops, get_backdrops_floor,
            get_user_actions, hhist, hact, hsearch, getTranslate, h]
  · intro h h2
    exact ⟨by simp [buy_nfts, hbuy, postTranslate, h, h2],
           by simp [withdraw_nfts, hwd, postTranslate, h, h2]⟩

/-- C3 witness: upstream 503 surfaces as the local 503 for a GET route and a
POST route. -/
theorem upstream_status_passthrough_witness :
    get_config (fun _ => .response 503 .null) =
      .httpError 503 "Failed to fetch config" ∧
    buy_nfts (fun _ => .response 503 .null) (.obj [("nft_details", .arr [])]) =
      .httpError 503 "Failed to buy NFT(s)" :=
  ⟨((upstream_status_passthrough 503 .null).1 (by decide)).1,
   ((upstream_status_passthrough 503 .null).2 (by decide) (by decide)).1⟩

/-- C5: in the upstream query mapping of `/nfts/search`, offset, limit,
sort_by and status are always present; an absent optional filter is omitted
(no empty-string placeholder); for `/wallets/history`, offset and limit are
always present and an absent `types` is omitted; and an unsupplied `sort_by`
or `status` resolves to the defaults "price asc" and "listed". -/
theorem search_history_param_mapping :
    (∀ a : SearchArgs,
      plookup (searchParams a) "offset" = some (.int a.offset) ∧
      plookup (searchParams a) "limit" = some (.int a.limit) ∧
      plookup (searchParams a) "sort_by" = some (.str a.sort_by) ∧
      plookup (searchParams a) "status" = some (.str a.status) ∧
      (a.filter_by_collections = none →
          plookup (searchParams a) "filter_by_collections" = none) ∧
      (a.filter_by_backdrops = none →
          plookup (searchParams a) "filter_by_backdrops" = none) ∧
      (a.filter_by_symbols = none →
          plookup (searchParams a) "filter_by_symbols" = none) ∧
      (a.filter_by_models = none →
          plookup (searchParams a) "filter_by_models" = none)) ∧
    (∀ (offset limit : Int) (types : Option String),
      plookup (historyParams offset limit types) "offset" = some (.int offset) ∧
      plookup (historyParams offset limit types) "limit" = some (.int limit) ∧
      (types = none → plookup (historyParams offset limit types) "types" = none)) ∧
    (∀ (o l : Int) (c b s m : Option String), 0 ≤ o → 1 ≤ l →
      parseSearchQuery (some o) (some l) c b s m none none =
        some { offset := o, limit := l, filter_by_collections := c,
               filter_by_backdrops := b, filter_by_symbols := s,
               filter_by_models := m, sort_by := "price asc",
               status := "listed" }) := by
  refine ⟨fun a => ⟨?_, ?_, ?_, ?_, ?_, ?_, ?_, ?_⟩,
          fun offset limit types => ⟨?_, ?_, ?_⟩,
          fun o l c b s m h0 h1 => ?_⟩
  · simp [searchParams, plookup]
  · simp [searchParams, plookup]
  · simp [searchParams, plookup]
  · simp [searchParams, plookup]
  · intro hc
    apply plookup_eq_none
    intro p hp
    simp only [searchParams, hc, optFilter_none, List.cons_append, List.nil_append,
      List.append_nil, List.append_assoc, List.mem_cons, List.mem_append,
      List.not_mem_nil, or_false] at hp
    rcases hp with h1 | h1 | h1 | h1 | h1 | h1 | h1
    · simp [h1]
    · simp [h1]
    · simp [h1]
    · simp [h1]
    · rw [optFilter_key h1]; decide
    · rw [optFilter_key h1]; decide
    · rw [optFilter_key h1]; decide
  · intro hb
    apply plookup_eq_none
    intro p hp
    simp only [searchParams, hb, optFilter_none, List.cons_append, List.nil_append,
      List.append_nil, List.append_assoc, List.mem_cons, List.mem_append,
      List.not_mem_nil, or_false] at hp
    rcases hp with h1 | h1 | h1 | h1 | h1 | h1 | h1
    · simp [h1]
    · simp [h1]
    · simp [h1]
    · simp [h1]
    · rw [optFilter_key h1]; decide
    · rw [optFilter_key h1]; decide
    · rw [optFilter_key h1]; decide
  · intro hs
    apply plookup_eq_none
    intro p hp
    simp only [searchParams, hs, optFilter_none, List.cons_append, List.nil_append,
      List.append_nil, List.append_assoc, List.mem_cons, List.mem_append,
      List.not_mem_nil, or_false] at hp
    rcases hp with h1 | h1 | h1 | h1 | h1 | h1 | h1
    · simp [h1]
    · simp [h1]
    · simp [h1]
    · simp [h1]
    · rw [optFilter_key h1]; decide
    · rw [optFilter_key h1]; decide
    · rw [optFilter_key h1]; decide
  · intro hm
    apply plookup_eq_none
    intro p hp
    simp only [searchParams, hm, optFilter_none, List.cons_append, List.nil_append,
      List.append_nil, List.append_assoc, List.mem_cons, List.mem_append,
      List.not_mem_nil, or_false] at hp
    rcases hp with h1 | h1 | h1 | h1 | h1 | h1 | h1
    · simp [h1]
    · simp [h1]
    · simp [h1]
    · simp [h1]
    · rw [optFilter_key h1]; decide
    · rw [optFilter_key h1]; decide
    · rw [optFilter_key h1]; decide
  · simp [historyParams, plookup]
  · simp [historyParams, plookup]
  · intro ht
    simp [historyParams, ht, plookup]
  · simp [parseSearchQuery, h0, h1]

/-- C5 witness: with no filters and no sort/status supplied, the defaults
take effect and no filter key is sent. -/
theorem search_history_param_mapping_witness :
    plookup (searchParams ⟨5, 10, none, none, none, none, "price asc", "listed"⟩)
        "filter_by_collections" = none ∧
    parseSearchQuery (some 0) (some 1) none none none none none none =
      some ⟨0, 1, none, none, none, none, "price asc", "listed"⟩ :=
  ⟨(search_history_param_mapping.1
      ⟨5, 10, none, none, none, none, "price asc", "listed"⟩).2.2.2.2.1 rfl,
   search_history_param_mapping.2.2 0 1 none none none none
     (by norm_num) (by norm_num)⟩

/-- C7 counterexample: the claim says optional fields are preserved as
null/absent exactly as received.  A wallet-history action received without
its `tx_hash` key is returned with an explicit `"tx_hash": null` (pydantic
v1 materializes the implicit `None` default when FastAPI serializes the
response model), so the body is not returned exactly as received. -/
theorem absent_optional_materialized_as_null :
    get_wallet_history
      (fun _ => .response 200 (.obj [("actions", .arr [.obj
        [("type", .str "deposit"), ("from_wallet", .str "w1"),
         ("added_at", .str "2024-01-01T00:00:00Z"), ("amount", .str "1.00"),
         ("balance_before", .str "0.00"), ("balance_after", .str "1.00"),
         ("description", .str "top up")]])]))
      none none none =
      .ok 200 (.obj [("actions", .arr [.obj
        [("type", .str "deposit"), ("from_wallet", .str "w1"),
         ("added_at", .str "2024-01-01T00:00:00Z"), ("amount", .str "1.00"),
         ("tx_hash", .null), ("tx_lt", .null),
         ("balance_before", .str "0.00"), ("balance_after", .str "1.00"),
         ("related_entity_id", .null), ("related_entity_type", .null),
         ("description", .str "top up"), ("nft", .null)]])]) ∧
    (Json.obj
        [("type", .str "deposit"), ("from_wallet", .str "w1"),
         ("added_at", .str "2024-01-01T00:00:00Z"), ("amount", .str "1.00"),
         ("balance_before", .str "0.00"), ("balance_after", .str "1.00"),
         ("description", .str "top up")]).get "tx_hash" = none :=
  ⟨rfl, rfl⟩

/-- C7 (amended): every monetary amount field of the declared response shapes
is carried as a string (pydantic coercions all target strings), a received
`null` in an optional field is preserved as `null`, but an optional field
absent in the received body is materialized as an explicit `null` in the
local response rather than being kept absent. -/
theorem monetary_amounts_are_strings :
    (∀ j out, vModel WalletBalance j = some out →
        (∃ s, out.get "balance" = some (.str s)) ∧
        (∃ s, out.get "frozen_funds" = some (.str s))) ∧
    (∀ j out, vModel WalletLimits j = some out →
        (∃ s, out.get "max_per_transaction" = some (.str s)) ∧
        (∃ s, out.get "max_daily" = some (.str s)) ∧
        (∃ s, out.get "daily_used" = some (.str s)) ∧
        (∃ s, out.get "daily_remaining" = some (.str s))) ∧
    (∀ j out, vModel ConfigResponse j = some out →
        (∃ s, out.get "commission" = some (.str s)) ∧
        (∃ s, out.get "usdt_course" = some (.str s))) ∧
    (∀ j out, vModel WalletAction j = some out →
        (∃ s, out.get "amount" = some (.str s)) ∧
        (∃ s, out.get "balance_before" = some (.str s)) ∧
        (∃ s, out.get "balance_after" = some (.str s)) ∧
        (j.get "tx_hash" = some .null → out.get "tx_hash" = some .null) ∧
        (j.get "tx_hash" = none → out.get "tx_hash" = some .null)) := by
  refine ⟨fun j out h => ⟨?_, ?_⟩, fun j out h => ⟨?_, ?_, ?_, ?_⟩,
          fun j out h => ⟨?_, ?_⟩, fun j out h => ⟨?_, ?_, ?_, ?_, ?_⟩⟩
  · exact vModel_str_field h (by decide) (by simp [WalletBalance])
  · exact vModel_str_field h (by decide) (by simp [WalletBalance])
  · exact vModel_str_field h (by decide) (by simp [WalletLimits])
  · exact vModel_str_field h (by decide) (by simp [WalletLimits])
  · exact vModel_str_field h (by decide) (by simp [WalletLimits])
  · exact vModel_str_field h (by decide) (by simp [WalletLimits])
  · exact vModel_str_field h (by decide) (by simp [ConfigResponse])
  · exact vModel_str_field h (by decide) (by simp [ConfigResponse])
  · exact vModel_str_field h (by decide) (by simp [WalletAction])
  · exact vModel_str_field h (by decide) (by simp [WalletAction])
  · exact vModel_str_field h (by decide) (by simp [WalletAction])
  · exact fun hnull =>
      vModel_opt_field_null (f := vStr) h (by decide) (by simp [WalletAction])
        (Or.inl hnull)
  · exact fun habs =>
      vModel_opt_field_null (f := vStr) h (by decide) (by simp [WalletAction])
        (Or.inr habs)

/-- C7 (amended) witness: a concrete balance body with string amounts, and a
concrete action whose absent `tx_hash` comes back as `null`. -/
theorem monetary_amounts_are_strings_witness :
    (∃ s, (Json.obj [("balance", .str "1.50"), ("frozen_funds", .str "0.00")]).get
        "balance" = some (.str s)) ∧
    (Json.obj
        [("type", .str "t"), ("from_wallet", .str "w"), ("added_at", .str "a"),
         ("amount", .str "1"), ("tx_hash", .null), ("tx_lt", .null),
         ("balance_before", .str "0"), ("balance_after", .str "1"),
         ("related_entity_id", .null), ("related_entity_type", .null),
         ("description", .str "d"), ("nft", .null)]).get "tx_hash" =
      some .null :=
  ⟨(monetary_amounts_are_strings.1
      (Json.obj [("balance", .str "1.50"), ("frozen_funds", .str "0.00")])
      (Json.obj [("balance", .str "1.50"), ("frozen_funds", .str "0.00")]) rfl).1,
   (monetary_amounts_are_strings.2.2.2
      (Json.obj
        [("type", .str "t"), ("from_wallet", .str "w"), ("added_at", .str "a"),
         ("amount", .str "1"), ("balance_before", .str "0"),
         ("balance_after", .str "1"), ("description", .str "d")])
      (Json.obj
        [("type", .str "t"), ("from_wallet", .str "w"), ("added_at", .str "a"),
         ("amount", .str "1"), ("tx_hash", .null), ("tx_lt", .null),
         ("balance_before", .str "0"), ("balance_after", .str "1"),
         ("related_entity_id", .null), ("related_entity_type", .null),
         ("description", .str "d"), ("nft", .null)]) rfl).2.2.2.2 rfl⟩

/-- C9: for every route with a declared typed response model, an upstream 200
whose JSON body omits a required field of that model — the claim's own
nonconforming example, a class the program rejects under pydantic v1
regardless of its lenient coercions — yields the framework's 500 server
error instead of a verbatim passthrough.  For the list-shaped backdrops
response the nonconforming body is a list whose element omits a required
field. -/
theorem nonconforming_upstream_body_is_500 (kvs : List (String × Json)) :
    (jlookup kvs "commission" = none →
        get_config (fun _ => .response 200 (.obj kvs)) = .serverError) ∧
    (jlookup kvs "max_per_transaction" = none →
        get_wallet_limits (fun _ => .response 200 (.obj kvs)) = .serverError) ∧
    (jlookup kvs "actions" = none →
        get_wallet_history (fun _ => .response 200 (.obj kvs)) none none none =
          .serverError) ∧
    (jlookup kvs "balance" = none →
        get_wallet_balance (fun _ => .response 200 (.obj kvs)) = .serverError) ∧
    (jlookup kvs "nfts" = none →
        list_nfts (fun _ => .response 200 (.obj kvs)) = .serverError) ∧
    (∀ rest, jlookup kvs "name" = none →
        get_backdrops (fun _ => .response 200 (.arr (.obj kvs :: rest))) =
          .serverError) ∧
    (jlookup kvs "floorPrices" = none →
        get_backdrops_floor (fun _ => .response 200 (.obj kvs)) = .serverError) ∧
    (jlookup kvs "actions" = none →
        get_user_actions (fun _ => .response 200 (.obj kvs)) none none =
          .serverError) := by
  have hhist : parseOffsetLimit 0 30 none none = some (0, 30) := rfl
  have hact : parseOffsetLimit 0 20 none none = some (0, 20) := rfl
  refine ⟨fun h => ?_, fun h => ?_, fun h => ?_, fun h => ?_,
          fun h => ?_, fun rest h => ?_, fun h => ?_, fun h => ?_⟩
  · have hm : ("commission", req vStr) ∈ ConfigResponse := by simp [ConfigResponse]
    simp [get_config, getTranslate, vModel_req_absent hm h]
  · have hm : ("max_per_transaction", req vStr) ∈ WalletLimits := by
      simp [WalletLimits]
    simp [get_wallet_limits, getTranslate, vModel_req_absent hm h]
  · have hm : ("actions", req (vList (vModel WalletAction))) ∈ WalletHistoryResponse := by
      simp [WalletHistoryResponse]
    simp [get_wallet_history, hhist, getTranslate, vModel_req_absent hm h]
  · have hm : ("balance", req vStr) ∈ WalletBalance := by simp [WalletBalance]
    simp [get_wallet_balance, getTranslate, vModel_req_absent hm h]
  · have hm : ("nfts", req (vList (vModel NFTItem))) ∈ NFTListResponse := by
      simp [NFTListResponse]
    simp [list_nfts, getTranslate, vModel_req_absent hm h]
  · have hm : ("name", req vStr) ∈ Backdrop := by simp [Backdrop]
    simp [get_backdrops, getTranslate, vList_head_fail (vModel_req_absent hm h)]
  · have hm : ("floorPrices", req vDict) ∈ FloorPricesResponse := by
      simp [FloorPricesResponse]
    simp [get_backdrops_floor, getTranslate, vModel_req_absent hm h]
  · have hm : ("actions", req (vList (vModel UserAction))) ∈ UserActionsResponse := by
      simp [UserActionsResponse]
    simp [get_user_actions, hact, getTranslate, vModel_req_absent hm h]

/-- C9 witness: an upstream 200 with an empty object body (required field
missing) is a 500 on `/config`, as is a backdrops list whose element is an
empty object. -/
theorem nonconforming_upstream_body_is_500_witness :
    get_config (fun _ => .response 200 (.obj [])) = .serverError ∧
    get_backdrops (fun _ => .response 200 (.arr [.obj []])) = .serverError :=
  ⟨(nonconforming_upstream_body_is_500 []).1 rfl,
   (nonconforming_upstream_body_is_500 []).2.2.2.2.2.1 [] rfl⟩

end Claims
